import Mathlib

/-!
Shallow embedding of `src/alibaba_scraper.py` (class `AlibabaScraper`).

The scraper drives a browser; every browser primitive (navigation, element
lookup, attribute reads, screenshots) can either succeed or raise.  We model
one execution environment as a record that fixes the outcome of each primitive
the code performs, and translate each Python function into a pure Lean
function over that environment.  Python exceptions are modelled with
`Except Err`; a Python `dict` product record is modelled as a structure whose
field set mirrors the dict keys (the key `"url"`, added only by the detail
merge, is an `Option`).
-/

namespace AlibabaScraper

/-- Kinds of exceptions a browser primitive can raise.  `browse` stands for
navigation / element lookup / timeout / parsing errors, `shot` for a failure
of a screenshot write, `notInit` for the `RuntimeError` raised by
`_get_new_page` when no browser session is open. -/

inductive Err where
  | browse
  | shot
  | notInit
deriving DecidableEq, Repr

instance exceptDecEq {ε α : Type} [DecidableEq ε] [DecidableEq α] :
    DecidableEq (Except ε α)
  | .ok a, .ok b =>
    if h : a = b then .isTrue (by rw [h])
    else .isFalse (by intro he; cases he; exact h rfl)
  | .ok _, .error _ => .isFalse (by intro h; cases h)
  | .error _, .ok _ => .isFalse (by intro h; cases h)
  | .error a, .error b =>
    if h : a = b then .isTrue (by rw [h])
    else .isFalse (by intro he; cases he; exact h rfl)

/-- Checks that the character list `p` is an initial segment
of the character list `s` (first argument `s`, second `p`); it is the computational core of Python's
`str.startswith`. -/

def leadMatch : List Char → List Char → Bool
  | _, [] => true
  | [], _ :: _ => false
  | c :: cs, d :: ds => c == d && leadMatch cs ds

/-- Python's `s.startswith(p)` on strings. -/

def pyStartswith (s p : String) : Bool :=
  leadMatch s.data p.data

/-- Sentinel used by the code for a field that is not (yet) populated. -/

def NA : String := "N/A"

/-- URL normalization, lines 154–163 of `_parse_search_results`, applied to a
non-empty `href` value: a `//…` link gets `https:` prepended, a `/…` link gets
the site origin prepended, and the result is accepted iff it starts with
`"http"` (`none` models the `continue` that skips the item). -/

def normalizeUrl (raw : String) : Option String :=
  let u :=
    if pyStartswith raw "//" then "https:" ++ raw
    else if pyStartswith raw "/" then "https://www.alibaba.com" ++ raw
    else raw
  if pyStartswith u "http" then some u else none

/-- Spec-side predicate, used only to compare the code's acceptance rule with
the spec's words: an address is scheme-qualified absolute iff it starts with
`http://` or `https://`. -/

def schemeQualified (s : String) : Bool :=
  pyStartswith s "http://" || pyStartswith s "https://"

/-- The `details` dict built by `_extract_product_details_from_product_page`:
keys `url`, `full_description`, `images`, `html_content`, `price_per_unit`,
`company_years`, `verified_supplier`. -/

structure Details where
  url : String
  full_description : String
  images : List String
  html_content : String
  price_per_unit : String
  company_years : String
  verified_supplier : String
deriving DecidableEq, Repr

/-- The initial `details` dict: the given URL plus sentinel values. -/

def baseDetails (product_url : String) : Details :=
  { url := product_url
    full_description := NA
    images := []
    html_content := NA
    price_per_unit := NA
    company_years := NA
    verified_supplier := NA }

/-- A product record as built by `_parse_search_results`: the
`product_summary` dict, possibly merged (via `dict.update`) with a `Details`
dict.  `url` is `none` until the detail merge adds that key. -/

structure ProductRecord where
  title : String
  company_summary : String
  product_page_url : String
  url : Option String
  full_description : String
  images : List String
  html_content : String
  price_per_unit : String
  company_years : String
  verified_supplier : String
deriving DecidableEq, Repr

/-- Model of `product_summary.update(full_details)`: every key present in the details
dict overwrites the summary's entry; `title`, `company_summary` and
`product_page_url` are not keys of the details dict and stay untouched, while
`url` is a new key added by the merge. -/

def updateSummary (s : ProductRecord) (d : Details) : ProductRecord :=
  { s with
    url := some d.url
    full_description := d.full_description
    images := d.images
    html_content := d.html_content
    price_per_unit := d.price_per_unit
    company_years := d.company_years
    verified_supplier := d.verified_supplier }

/-- Outcomes of the browser primitives used by
`_extract_product_details_from_product_page` on one product URL:
`context.new_page()`, `product_page.goto(...)`, `product_page.content()` and
the error-path `product_page.screenshot(...)`.  (`_close_initial_popups`
swallows every exception internally, so it has no failure outcome.) -/

structure DetailEnv where
  newPage : Except Err Unit
  goto : Except Err Unit
  content : Except Err String
  screenshot : Except Err Unit
deriving DecidableEq, Repr

/-- Result of one run of the detail extractor: the value returned (or the
exception propagated out of its `except` handler), and whether a product page
was opened / closed by the run. -/

structure DetailResult where
  result : Except Err Details
  pageOpened : Bool
  pageClosed : Bool
deriving DecidableEq, Repr

/-- Model of `_extract_product_details_from_product_page` (lines 84–123).  The
`details` dict starts as `baseDetails`; on success `html_content` is set to
the page content; any exception in the `try` block leads to the handler,
which attempts a screenshot when a page was opened (an exception of that
screenshot propagates); the `finally` block closes the page whenever one was
opened. -/

def extractDetails (env : DetailEnv) (product_url : String) : DetailResult :=
  let base := baseDetails product_url
  match env.newPage with
  | .error _ =>
    { result := .ok base, pageOpened := false, pageClosed := false }
  | .ok _ =>
    match env.goto with
    | .error _ =>
      match env.screenshot with
      | .ok _ => { result := .ok base, pageOpened := true, pageClosed := true }
      | .error e => { result := .error e, pageOpened := true, pageClosed := true }
    | .ok _ =>
      match env.content with
      | .ok s =>
        { result := .ok { base with html_content := s }
          pageOpened := true, pageClosed := true }
      | .error _ =>
        match env.screenshot with
        | .ok _ => { result := .ok base, pageOpened := true, pageClosed := true }
        | .error e => { result := .error e, pageOpened := true, pageClosed := true }

/-- Outcomes of the per-item primitives used inside the loop of
`_parse_search_results`: the two `text_content` reads, the
`get_attribute("href")` read (which can fail, or succeed with `None` or a
string), and the environment for that item's detail extraction. -/

structure ItemEnv where
  title : Except Err String
  company : Except Err String
  href : Except Err (Option String)
  detail : DetailEnv
deriving DecidableEq, Repr

/-- Outcomes of the page-level primitives of `_parse_search_results`:
`wait_for_selector` on the product-item selector, the screenshot taken when
no items are found, the enumerated items, and whether
`self._browser and self._browser.contexts` is truthy (in a real search flow
it always is, because the results page itself lives in a context of the
browser). -/

structure PageEnv where
  waitForItems : Except Err Unit
  noItemsScreenshot : Except Err Unit
  items : List ItemEnv
  hasContext : Bool
deriving DecidableEq, Repr

/-- The body of the per-item `try` block (lines 148–183) for one item:
`none` means the item contributed nothing to `products_data`, either through
a `continue` (missing / rejected URL) or through the per-item `except`
handler (any exception, including one propagated out of the detail
extractor's failing screenshot write). -/

def processItem (hasCtx : Bool) (it : ItemEnv) : Option ProductRecord :=
  match it.title with
  | .error _ => none
  | .ok title =>
    match it.company with
    | .error _ => none
    | .ok company =>
      match it.href with
      | .error _ => none
      | .ok none => none
      | .ok (some raw) =>
        if raw = "" then none
        else
          match normalizeUrl raw with
          | none => none
          | some product_url =>
            let product_summary : ProductRecord :=
              { title := title
                company_summary := company
                product_page_url := product_url
                url := none
                full_description := NA
                images := []
                html_content := NA
                price_per_unit := NA
                company_years := NA
                verified_supplier := NA }
            if hasCtx then
              match (extractDetails it.detail product_url).result with
              | .error _ => none
              | .ok full_details => some (updateSummary product_summary full_details)
            else some product_summary

/-- The enumeration loop of `_parse_search_results` (lines 144–188): `i` is
the enumeration index, and `if i >= 5: break` stops the loop after the first
five enumerated elements. -/

def parseLoop (hasCtx : Bool) : Nat → List ItemEnv → List ProductRecord
  | _, [] => []
  | i, it :: rest =>
    if 5 ≤ i then []
    else
      match processItem hasCtx it with
      | none => parseLoop hasCtx (i + 1) rest
      | some r => r :: parseLoop hasCtx (i + 1) rest

/-- Model of `_parse_search_results` (lines 125–190): if `wait_for_selector` times
out, take a screenshot (whose own failure propagates) and return `[]`;
otherwise run the enumeration loop. -/

def parseResults (env : PageEnv) : Except Err (List ProductRecord) :=
  match env.waitForItems with
  | .error _ =>
    match env.noItemsScreenshot with
    | .ok _ => .ok []
    | .error e => .error e
  | .ok _ => .ok (parseLoop env.hasContext 0 env.items)

/-- Outcomes of the primitives of `search_by_text` (lines 225–257):
whether the scraper session is initialized (`_get_new_page` raises
otherwise), `page.goto`, the search-bar `fill`, the button `click`, the
results-page environment, and the screenshot taken by the `except` handler.
`_close_initial_popups` and `wait_for_timeout` cannot raise. -/

structure TextSearchEnv where
  initialized : Bool
  goto : Except Err Unit
  fill : Except Err Unit
  click : Except Err Unit
  page : PageEnv
  errScreenshot : Except Err Unit
deriving DecidableEq, Repr

/-- The `try` block of `search_by_text`: `goto`, popup dismissal (cannot
raise), `fill`, `click`, the settle wait (cannot raise), then
`_parse_search_results`; the first exception aborts the block. -/

def textAttempt (env : TextSearchEnv) : Except Err (List ProductRecord) :=
  match env.goto with
  | .error e => .error e
  | .ok _ =>
    match env.fill with
    | .error e => .error e
    | .ok _ =>
      match env.click with
      | .error e => .error e
      | .ok _ => parseResults env.page

/-- Model of `search_by_text` (lines 225–257).  The `search_query` string is typed
into the bar (its effect summarized by `env.fill`) and `use_smart_search`
only gates a log message.  Any exception from the `try` block reaches the
handler, which attempts a screenshot (whose own failure propagates to the
caller) and returns `[]`. -/

def searchByText (env : TextSearchEnv) (search_query : String)
    (use_smart_search : Bool) : Except Err (List ProductRecord) :=
  if env.initialized = false then .error .notInit
  else
    match textAttempt env with
    | .ok l => .ok l
    | .error _ =>
      match env.errScreenshot with
      | .ok _ => .ok []
      | .error e => .error e

/-- Outcomes of the primitives of `search_by_image` (lines 192–223):
initialization, `page.goto`, the camera-icon click under
`expect_file_chooser`, `file_chooser.set_files`, the results-page
environment, and the `except` handler's screenshot. -/

structure ImageSearchEnv where
  initialized : Bool
  goto : Except Err Unit
  chooserClick : Except Err Unit
  setFiles : Except Err Unit
  page : PageEnv
  errScreenshot : Except Err Unit
deriving DecidableEq, Repr

/-- The `try` block of `search_by_image`: `goto`, popup dismissal, the
camera-icon click under `expect_file_chooser`, `set_files`, the settle wait,
then `_parse_search_results`. -/

def imageAttempt (env : ImageSearchEnv) : Except Err (List ProductRecord) :=
  match env.goto with
  | .error e => .error e
  | .ok _ =>
    match env.chooserClick with
    | .error e => .error e
    | .ok _ =>
      match env.setFiles with
      | .error e => .error e
      | .ok _ => parseResults env.page

/-- Model of `search_by_image` (lines 192–223), structured exactly like
`search_by_text` with the chooser steps in place of fill / click. -/

def searchByImage (env : ImageSearchEnv) (image_path : String) :
    Except Err (List ProductRecord) :=
  if env.initialized = false then .error .notInit
  else
    match imageAttempt env with
    | .ok l => .ok l
    | .error _ =>
      match env.errScreenshot with
      | .ok _ => .ok []
      | .error e => .error e

/-- A detail environment in which every primitive succeeds and the page
content is `h`. -/

def detailOk (h : String) : DetailEnv :=
  { newPage := .ok (), goto := .ok (), content := .ok h, screenshot := .ok () }

/-- A well-formed result item: title `t`, company summary `c`, link `u`,
detail-page content `h`. -/

def itemOk (t c u h : String) : ItemEnv :=
  { title := .ok t, company := .ok c, href := .ok (some u), detail := detailOk h }

/-- The record the parse produces for `itemOk t c u h` when `u` is already
absolute. -/

def recOk (t c u h : String) : ProductRecord :=
  { title := t, company_summary := c, product_page_url := u, url := some u,
    full_description := NA, images := [], html_content := h,
    price_per_unit := NA, company_years := NA, verified_supplier := NA }

/-- A results page on which everything works but no items are present. -/

def pageAllOkEmpty : PageEnv :=
  { waitForItems := .ok (), noItemsScreenshot := .ok (), items := [],
    hasContext := true }

/-- A results page on which no result item appears before the timeout and
the no-items screenshot write succeeds. -/

def pageNoItems : PageEnv :=
  { waitForItems := .error .browse, noItemsScreenshot := .ok (), items := [],
    hasContext := true }

/-- A results page with six well-formed items. -/

def envC6 : PageEnv :=
  { waitForItems := .ok (), noItemsScreenshot := .ok (),
    items := [itemOk "T1" "C1" "https://www.alibaba.com/p1" "H1",
              itemOk "T2" "C2" "https://www.alibaba.com/p2" "H2",
              itemOk "T3" "C3" "https://www.alibaba.com/p3" "H3",
              itemOk "T4" "C4" "https://www.alibaba.com/p4" "H4",
              itemOk "T5" "C5" "https://www.alibaba.com/p5" "H5",
              itemOk "T6" "C6" "https://www.alibaba.com/p6" "H6"],
    hasContext := true }

/-- A detail extraction whose navigation fails and whose diagnostic
screenshot write also fails. -/

def detailEnvShotFail : DetailEnv :=
  { newPage := .ok (), goto := .error .browse, content := .ok "H",
    screenshot := .error .shot }

/-- A detail extraction whose navigation fails but whose screenshot write
succeeds. -/

def detailEnvGotoFail : DetailEnv :=
  { newPage := .ok (), goto := .error .browse, content := .ok "H",
    screenshot := .ok () }

/-- A detail extraction whose content read fails and whose screenshot write
fails. -/

def detailEnvC8 : DetailEnv :=
  { newPage := .ok (), goto := .ok (), content := .error .browse,
    screenshot := .error .shot }

/-- A text search whose navigation fails and whose error-handler screenshot
write fails. -/

def tEnvC8 : TextSearchEnv :=
  { initialized := true, goto := .error .browse, fill := .ok (), click := .ok (),
    page := pageAllOkEmpty, errScreenshot := .error .shot }

/-- A result item whose title extraction raises. -/

def itemFail : ItemEnv :=
  { title := .error .browse, company := .ok "C",
    href := .ok (some "https://www.alibaba.com/x"), detail := detailOk "H" }

/-- A results page whose second item fails during field extraction. -/

def envC4 : PageEnv :=
  { waitForItems := .ok (), noItemsScreenshot := .ok (),
    items := [itemOk "T1" "C1" "https://www.alibaba.com/p1" "H1", itemFail,
              itemOk "T3" "C3" "https://www.alibaba.com/p3" "H3"],
    hasContext := true }

/-- The seven-item synthetic results page of the end-to-end scenario:
items 0–4 well-formed with distinct absolute URLs, item 5 missing its link
attribute, item 6 with a root-relative link. -/

def envC3 : PageEnv :=
  { waitForItems := .ok (), noItemsScreenshot := .ok (),
    items := [itemOk "T1" "C1" "https://www.alibaba.com/p1" "H1",
              itemOk "T2" "C2" "https://www.alibaba.com/p2" "H2",
              itemOk "T3" "C3" "https://www.alibaba.com/p3" "H3",
              itemOk "T4" "C4" "https://www.alibaba.com/p4" "H4",
              itemOk "T5" "C5" "https://www.alibaba.com/p5" "H5",
              { title := .ok "T6", company := .ok "C6", href := .ok none,
                detail := detailOk "H6" },
              itemOk "T7" "C7" "/p7" "H7"],
    hasContext := true }

/-- The records the code actually returns for `envC3`. -/

def expectedC3 : List ProductRecord :=
  [recOk "T1" "C1" "https://www.alibaba.com/p1" "H1",
   recOk "T2" "C2" "https://www.alibaba.com/p2" "H2",
   recOk "T3" "C3" "https://www.alibaba.com/p3" "H3",
   recOk "T4" "C4" "https://www.alibaba.com/p4" "H4",
   recOk "T5" "C5" "https://www.alibaba.com/p5" "H5"]

/-- A text search whose navigation fails and whose error-handler screenshot
write also fails. -/

def tEnvEscape : TextSearchEnv :=
  { initialized := true, goto := .error .browse, fill := .ok (), click := .ok (),
    page := pageAllOkEmpty, errScreenshot := .error .shot }

/-- A fully healthy text-search environment over an empty results page. -/

def tEnvHealthy : TextSearchEnv :=
  { initialized := true, goto := .ok (), fill := .ok (), click := .ok (),
    page := pageAllOkEmpty, errScreenshot := .ok () }

/-- A fully healthy image-search environment over an empty results page. -/

def iEnvHealthy : ImageSearchEnv :=
  { initialized := true, goto := .ok (), chooserClick := .ok (),
    setFiles := .ok (), page := pageAllOkEmpty, errScreenshot := .ok () }

/-- A text search that reaches a results page without items and on which
both the no-items screenshot and the handler screenshot fail. -/

def tEnvNoItemsShotFail : TextSearchEnv :=
  { initialized := true, goto := .ok (), fill := .ok (), click := .ok (),
    page := { waitForItems := .error .browse, noItemsScreenshot := .error .shot,
              items := [], hasContext := true },
    errScreenshot := .error .shot }

/-- A text search that reaches an item-less results page, with healthy
screenshots. -/

def tEnvNoItemsOk : TextSearchEnv :=
  { initialized := true, goto := .ok (), fill := .ok (), click := .ok (),
    page := pageNoItems, errScreenshot := .ok () }

/-- An image search that reaches an item-less results page, with healthy
screenshots. -/

def iEnvNoItemsOk : ImageSearchEnv :=
  { initialized := true, goto := .ok (), chooserClick := .ok (),
    setFiles := .ok (), page := pageNoItems, errScreenshot := .ok () }

/-- A results page with a single well-formed item. -/

def pageOneItem : PageEnv :=
  { waitForItems := .ok (), noItemsScreenshot := .ok (),
    items := [itemOk "T1" "Co1" "https://www.alibaba.com/w1" "H1"],
    hasContext := true }

/-- A healthy text search over the single-item page. -/

def tEnvOne : TextSearchEnv :=
  { initialized := true, goto := .ok (), fill := .ok (), click := .ok (),
    page := pageOneItem, errScreenshot := .ok () }

/-- A healthy image search over the single-item page. -/

def iEnvOne : ImageSearchEnv :=
  { initialized := true, goto := .ok (), chooserClick := .ok (),
    setFiles := .ok (), page := pageOneItem, errScreenshot := .ok () }

/-- The product record the single-item searches return. -/

def oneRec : List ProductRecord :=
  [recOk "T1" "Co1" "https://www.alibaba.com/w1" "H1"]

/-! ### Helper lemmas -/

/-- Prepending `https:` always yields a string that starts with `http`. -/

lemma startswith_http_of_https (u : String) :
    pyStartswith ("https:" ++ u) "http" = true := rfl

/-- Prepending the site origin always yields a string that starts with
`http`. -/

lemma startswith_http_of_origin (u : String) :
    pyStartswith ("https://www.alibaba.com" ++ u) "http" = true := rfl

/-- The enumeration loop started at index `i` processes exactly the first
`5 - i` items, keeping (in order) those whose processing yields a record. -/

lemma parseLoop_eq_filterMap (hasCtx : Bool) (l : List ItemEnv) :
    ∀ i : Nat, parseLoop hasCtx i l =
      (l.take (5 - i)).filterMap (processItem hasCtx) := by
  induction l with
  | nil => intro i; simp [parseLoop]
  | cons it rest ih =>
    intro i
    by_cases h : 5 ≤ i
    · rw [Nat.sub_eq_zero_of_le h]
      simp [parseLoop, h]
    · have h5 : 5 - i = (5 - (i + 1)) + 1 := by omega
      rw [h5]
      simp only [parseLoop, if_neg h, List.take_succ_cons, List.filterMap_cons]
      cases hp : processItem hasCtx it <;> simp [ih (i + 1), hp]

/-- Removing an element that `f` maps to `none` does not change a
`filterMap`. -/

lemma filterMap_eraseIdx_of_none {α β : Type} (f : α → Option β) :
    ∀ (l : List α) (i : Nat) (h : i < l.length), f (l.get ⟨i, h⟩) = none →
      l.filterMap f = (l.eraseIdx i).filterMap f := by
  intro l
  induction l with
  | nil => intro i h; simp at h
  | cons a t ih =>
    intro i h hf
    cases i with
    | zero =>
      simp only [List.get] at hf
      simp [List.eraseIdx_cons_zero, List.filterMap_cons, hf]
    | succ j =>
      have hj : j < t.length := by simpa using h
      have hft : f (t.get ⟨j, hj⟩) = none := by simpa [List.get] using hf
      simp only [List.eraseIdx_cons_succ, List.filterMap_cons]
      cases hfa : f a <;> simp [ih j hj hft]

/-- The `url` entry of the details dict is the product URL handed to the
extractor, on every path. -/

lemma extractDetails_url (env : DetailEnv) (u : String) (d : Details)
    (h : (extractDetails env u).result = .ok d) : d.url = u := by
  obtain ⟨np, g, c, s⟩ := env
  cases np <;> cases g <;> cases c <;> cases s <;>
    simp [extractDetails, baseDetails] at h <;> simp [← h, baseDetails]

/-- The detail extractor closes its product page iff it opened one. -/

lemma extractDetails_closed_iff_opened (env : DetailEnv) (u : String) :
    (extractDetails env u).pageClosed = (extractDetails env u).pageOpened := by
  obtain ⟨np, g, c, s⟩ := env
  cases np <;> cases g <;> cases c <;> cases s <;> rfl

/-- A record produced by the per-item processing (with a browser context
available) carries the normalized URL under both `product_page_url` and
`url`. -/

lemma processItem_url (it : ItemEnv) (r : ProductRecord)
    (h : processItem true it = some r) : r.url = some r.product_page_url := by
  unfold processItem at h
  cases ht : it.title with
  | error e => simp [ht] at h
  | ok title =>
    rw [ht] at h
    cases hc : it.company with
    | error e => simp [hc] at h
    | ok company =>
      rw [hc] at h
      cases hh : it.href with
      | error e => simp [hh] at h
      | ok o =>
        rw [hh] at h
        cases o with
        | none => simp at h
        | some raw =>
          simp only at h
          by_cases he : raw = ""
          · simp [he] at h
          · rw [if_neg he] at h
            cases hn : normalizeUrl raw with
            | none => simp [hn] at h
            | some product_url =>
              rw [hn] at h
              simp only [if_pos rfl] at h
              cases hd : (extractDetails it.detail product_url).result with
              | error e => simp [hd] at h
              | ok full_details =>
                rw [hd] at h
                cases h
                have := extractDetails_url it.detail product_url full_details hd
                simp [updateSummary, this]

/-- Every record in a successful parse with a browser context available
carries its URL under both keys. -/

lemma parseResults_url (env : PageEnv) (l : List ProductRecord)
    (hc : env.hasContext = true) (h : parseResults env = .ok l) :
    ∀ r ∈ l, r.url = some r.product_page_url := by
  intro r hr
  obtain ⟨w, ns, items, ctx⟩ := env
  cases hc
  unfold parseResults at h
  cases w with
  | error e =>
    cases ns with
    | ok u => cases h; simp at hr
    | error e2 => cases h
  | ok u =>
    cases h
    rw [parseLoop_eq_filterMap] at hr
    obtain ⟨it, _, hit⟩ := List.mem_filterMap.mp hr
    exact processItem_url it r hit

/-- A list returned by `search_by_text` is the handler's empty list or a
successful parse of the results page. -/

lemma searchByText_ok_cases (env : TextSearchEnv) (q : String) (b : Bool)
    (l : List ProductRecord) (h : searchByText env q b = .ok l) :
    l = [] ∨ parseResults env.page = .ok l := by
  unfold searchByText at h
  by_cases h0 : env.initialized = false
  · simp [h0] at h
  · rw [if_neg h0] at h
    cases hA : textAttempt env with
    | ok l2 =>
      rw [hA] at h
      cases h
      right
      unfold textAttempt at hA
      cases hg : env.goto <;> rw [hg] at hA
      · cases hA
      cases hf : env.fill <;> rw [hf] at hA
      · cases hA
      cases hcl : env.click <;> rw [hcl] at hA
      · cases hA
      exact hA
    | error e =>
      rw [hA] at h
      cases hs : env.errScreenshot <;> rw [hs] at h
      · cases h
      · cases h; left; rfl

/-- A list returned by `search_by_image` is the handler's empty list or a
successful parse of the results page. -/

lemma searchByImage_ok_cases (env : ImageSearchEnv) (p : String)
    (l : List ProductRecord) (h : searchByImage env p = .ok l) :
    l = [] ∨ parseResults env.page = .ok l := by
  unfold searchByImage at h
  by_cases h0 : env.initialized = false
  · simp [h0] at h
  · rw [if_neg h0] at h
    cases hA : imageAttempt env with
    | ok l2 =>
      rw [hA] at h
      cases h
      right
      unfold imageAttempt at hA
      cases hg : env.goto <;> rw [hg] at hA
      · cases hA
      cases hf : env.chooserClick <;> rw [hf] at hA
      · cases hA
      cases hcl : env.setFiles <;> rw [hcl] at hA
      · cases hA
      exact hA
    | error e =>
      rw [hA] at h
      cases hs : env.errScreenshot <;> rw [hs] at h
      · cases h
      · cases h; left; rfl

/-! ### Claims -/

/-- C1, counterexample: the claim says any input that is not `//…`, `/…` or
absolute `http(s)://…` is rejected, but the code only tests the prefix
`http`, so the malformed input `httpfoo` is accepted unchanged even though
it is not a scheme-qualified absolute address. -/

theorem url_normalization_rejects_counterexample :
    normalizeUrl "httpfoo" = some "httpfoo" ∧ schemeQualified "httpfoo" = false :=
  ⟨rfl, rfl⟩

/-- C1, amended: `//…` inputs become `https:` + input and are accepted;
`/…` inputs become the site origin + input and are accepted; any other
input is accepted unchanged iff it starts with `http` (in particular every
absolute `http(s)://…` input passes through unchanged); every accepted URL
is guaranteed only to start with `http`, not to be scheme-qualified. -/

theorem url_normalization_characterized (raw : String) :
    normalizeUrl raw =
      (if pyStartswith raw "//" then some ("https:" ++ raw)
       else if pyStartswith raw "/" then some ("https://www.alibaba.com" ++ raw)
       else if pyStartswith raw "http" then some raw
       else none) ∧
    Option.all (fun v => pyStartswith v "http") (normalizeUrl raw) = true := by
  have key : normalizeUrl raw =
      (if pyStartswith raw "//" then some ("https:" ++ raw)
       else if pyStartswith raw "/" then some ("https://www.alibaba.com" ++ raw)
       else if pyStartswith raw "http" then some raw
       else none) := by
    by_cases h2 : pyStartswith raw "//" = true
    · simp [normalizeUrl, h2, startswith_http_of_https raw]
    · by_cases h1 : pyStartswith raw "/" = true
      · simp [normalizeUrl, h2, h1, startswith_http_of_origin raw]
      · by_cases hh : pyStartswith raw "http" = true
        · simp [normalizeUrl, h2, h1, hh]
        · simp [normalizeUrl, h2, h1, hh]
  refine ⟨key, ?_⟩
  rw [key]
  split
  · simp [Option.all, startswith_http_of_https]
  · split
    · simp [Option.all, startswith_http_of_origin]
    · split
      · next h => simp [Option.all, h]
      · simp [Option.all]

/-- C9: the `use_smart_search` flag only gates a log message, so the two
invocations return identical results in every environment. -/

theorem smart_search_flag_no_effect (env : TextSearchEnv) (q : String) :
    searchByText env q true = searchByText env q false := rfl

/-- C6: the parse of a results page with more than five items equals the
parse of the page truncated to its first five items (in document order);
the remainder is ignored. -/

theorem result_cap_first_five (env : PageEnv) (h : 5 < env.items.length) :
    parseResults env = parseResults { env with items := env.items.take 5 } := by
  obtain ⟨w, ns, items, ctx⟩ := env
  unfold parseResults
  cases w with
  | error e => rfl
  | ok u =>
    show Except.ok (parseLoop ctx 0 items) = Except.ok (parseLoop ctx 0 (items.take 5))
    rw [parseLoop_eq_filterMap, parseLoop_eq_filterMap]
    simp [List.take_take]

/-- C6 witness: a six-item page meets the hypothesis and the cap theorem
applies to it. -/

theorem result_cap_first_five_witness :
    5 < envC6.items.length ∧
    parseResults envC6 = parseResults { envC6 with items := envC6.items.take 5 } :=
  ⟨by decide, result_cap_first_five envC6 (by decide)⟩

/-- C7, counterexample: the claim says a detail-extraction error is never
propagated, but when the error-path screenshot write itself fails, the
extractor propagates that exception (to the per-item handler of the parse)
instead of returning a record. -/

theorem detail_error_propagates_counterexample :
    (extractDetails detailEnvShotFail "https://www.alibaba.com/p2").result =
      .error .shot := rfl

/-- C7, amended: provided the error-path screenshot write succeeds, the
detail extractor never propagates: it returns a record in which every field
other than `html_content` keeps its `N/A` sentinel (and `images` stays
empty), with `url` set to the product URL; and the product page is closed
iff one was opened, on every exit path. -/

theorem detail_failure_isolated_given_screenshot_ok (env : DetailEnv)
    (url : String) (h : env.screenshot = Except.ok ()) :
    (∃ d, (extractDetails env url).result = .ok d ∧ d.url = url ∧
        d.full_description = NA ∧ d.images = ([] : List String) ∧
        d.price_per_unit = NA ∧ d.company_years = NA ∧
        d.verified_supplier = NA) ∧
    (extractDetails env url).pageClosed = (extractDetails env url).pageOpened := by
  refine ⟨?_, extractDetails_closed_iff_opened env url⟩
  obtain ⟨np, g, c, s⟩ := env
  simp only at h
  subst h
  cases np <;> cases g <;> cases c <;>
    exact ⟨_, rfl, rfl, rfl, rfl, rfl, rfl, rfl⟩

/-- C7 witness: the isolation theorem applied to a concrete failing
navigation. -/

theorem detail_failure_isolated_witness :
    detailEnvGotoFail.screenshot = Except.ok () ∧
    ((∃ d, (extractDetails detailEnvGotoFail "https://www.alibaba.com/p1").result = .ok d ∧
        d.url = "https://www.alibaba.com/p1" ∧ d.full_description = NA ∧
        d.images = ([] : List String) ∧ d.price_per_unit = NA ∧
        d.company_years = NA ∧ d.verified_supplier = NA) ∧
      (extractDetails detailEnvGotoFail "https://www.alibaba.com/p1").pageClosed =
        (extractDetails detailEnvGotoFail "https://www.alibaba.com/p1").pageOpened) :=
  ⟨rfl, detail_failure_isolated_given_screenshot_ok detailEnvGotoFail
    "https://www.alibaba.com/p1" rfl⟩

/-- C8: evaluation at the failing input.  The screenshot writes inside the
`except` handlers are unguarded, so a failing write escalates: in the detail
extractor it propagates out (causing the whole item to be skipped), and in
`search_by_text` it escapes to the caller instead of the promised list. -/

theorem screenshot_failure_escalates :
    (extractDetails detailEnvC8 "https://www.alibaba.com/p8").result = .error .shot ∧
    searchByText tEnvC8 "widgets" false = .error .shot :=
  ⟨rfl, rfl⟩

/-- C4: if the processing of the item at position `i` of the (at most five)
enumerated items contributes nothing — in particular if any of its
extraction steps raises — the parse still succeeds and returns exactly the
records of the other processed items, in their original relative order. -/

theorem partial_failure_isolation (env : PageEnv) (i : Nat)
    (h : i < (env.items.take 5).length)
    (hfail : processItem env.hasContext ((env.items.take 5).get ⟨i, h⟩) = none)
    (hwait : env.waitForItems = .ok ()) :
    parseResults env =
      .ok (((env.items.take 5).eraseIdx i).filterMap (processItem env.hasContext)) := by
  unfold parseResults
  rw [hwait]
  show Except.ok (parseLoop env.hasContext 0 env.items) = _
  rw [parseLoop_eq_filterMap]
  simp only [Nat.sub_zero]
  exact congrArg Except.ok
    (filterMap_eraseIdx_of_none (processItem env.hasContext) (env.items.take 5) i h hfail)

/-- C4 witness: on a page whose second item raises, the parse returns the
records of the remaining items. -/

theorem partial_failure_isolation_witness :
    processItem envC4.hasContext ((envC4.items.take 5).get ⟨1, by decide⟩) = none ∧
    parseResults envC4 =
      .ok (((envC4.items.take 5).eraseIdx 1).filterMap (processItem envC4.hasContext)) :=
  ⟨by decide, partial_failure_isolation envC4 1 (by decide) (by decide) rfl⟩

/-- C3, counterexample: on the seven-item scenario the code returns five
records, not the six the claim expects — the cap of five applies to the raw
enumeration order, so items 5 and 6 are never examined. -/

theorem end_to_end_scenario_counterexample :
    parseResults envC3 = .ok expectedC3 ∧ expectedC3.length ≠ 6 :=
  ⟨by decide, by decide⟩

/-- C3, amended: on the seven-item scenario the parse returns exactly the
five enriched records of items 0–4, in order; the cap of five applies to the
raw enumeration (including items that would be skipped), so item 5 (missing
link) and item 6 (root-relative link) are never processed; total length 5. -/

theorem end_to_end_scenario_cap_applies :
    parseResults envC3 = .ok expectedC3 ∧ expectedC3.length = 5 :=
  ⟨by decide, rfl⟩

/-- C2, counterexample: the claim says no error ever escapes an initialized
search call, but when the error handler's own screenshot write fails,
`search_by_text` raises to its caller instead of returning a list. -/

theorem search_error_escape_counterexample :
    searchByText tEnvEscape "widgets" false = .error .shot := rfl

/-- C2, amended: provided the error handler's diagnostic screenshot write
succeeds, no page-level error escapes an initialized `search_by_text` or
`search_by_image` call: each returns a (possibly empty) list, and a failing
navigation step in particular yields the empty list. -/

theorem search_no_escape_given_screenshot_ok (tEnv : TextSearchEnv)
    (iEnv : ImageSearchEnv) (q p : String) (b : Bool)
    (ht0 : tEnv.initialized = true) (ht1 : tEnv.errScreenshot = Except.ok ())
    (hi0 : iEnv.initialized = true) (hi1 : iEnv.errScreenshot = Except.ok ()) :
    (∃ l, searchByText tEnv q b = .ok l) ∧
    (∃ l, searchByImage iEnv p = .ok l) ∧
    (∀ e, tEnv.goto = .error e → searchByText tEnv q b = .ok []) ∧
    (∀ e, iEnv.goto = .error e → searchByImage iEnv p = .ok []) := by
  refine ⟨?_, ?_, ?_, ?_⟩
  · cases hA : textAttempt tEnv with
    | ok l => exact ⟨l, by simp [searchByText, ht0, hA]⟩
    | error e => exact ⟨[], by simp [searchByText, ht0, hA, ht1]⟩
  · cases hA : imageAttempt iEnv with
    | ok l => exact ⟨l, by simp [searchByImage, hi0, hA]⟩
    | error e => exact ⟨[], by simp [searchByImage, hi0, hA, hi1]⟩
  · intro e he
    have hA : textAttempt tEnv = .error e := by unfold textAttempt; rw [he]
    simp [searchByText, ht0, hA, ht1]
  · intro e he
    have hA : imageAttempt iEnv = .error e := by unfold imageAttempt; rw [he]
    simp [searchByImage, hi0, hA, hi1]

/-- C2 witness: the no-escape theorem applied to concrete environments. -/

theorem search_no_escape_witness :
    tEnvHealthy.initialized = true ∧ tEnvHealthy.errScreenshot = Except.ok () ∧
    iEnvHealthy.initialized = true ∧ iEnvHealthy.errScreenshot = Except.ok () ∧
    ((∃ l, searchByText tEnvHealthy "widgets" false = .ok l) ∧
     (∃ l, searchByImage iEnvHealthy "img.png" = .ok l) ∧
     (∀ e, tEnvHealthy.goto = .error e → searchByText tEnvHealthy "widgets" false = .ok []) ∧
     (∀ e, iEnvHealthy.goto = .error e → searchByImage iEnvHealthy "img.png" = .ok [])) :=
  ⟨rfl, rfl, rfl, rfl, search_no_escape_given_screenshot_ok tEnvHealthy iEnvHealthy
    "widgets" "img.png" false rfl rfl rfl rfl⟩

/-- C5, counterexample: when no result item appears and both diagnostic
screenshot writes fail, `search_by_text` raises instead of returning the
promised empty list. -/

theorem empty_result_escape_counterexample :
    searchByText tEnvNoItemsShotFail "widgets" false = .error .shot := rfl

/-- C5, amended: when no result item appears before the bounded wait
timeout, an initialized search (text or image) returns the empty list,
provided at least one of the two diagnostic screenshot writes (the no-items
one, or the handler's) succeeds. -/

theorem empty_result_guarantee_given_screenshot_ok
    (tEnv : TextSearchEnv) (iEnv : ImageSearchEnv) (q p : String) (b : Bool)
    (e1 e2 : Err)
    (ht0 : tEnv.initialized = true) (htg : tEnv.goto = Except.ok ())
    (htf : tEnv.fill = Except.ok ()) (htc : tEnv.click = Except.ok ())
    (htw : tEnv.page.waitForItems = .error e1)
    (hts : tEnv.page.noItemsScreenshot = Except.ok () ∨ tEnv.errScreenshot = Except.ok ())
    (hi0 : iEnv.initialized = true) (hig : iEnv.goto = Except.ok ())
    (hicc : iEnv.chooserClick = Except.ok ()) (hisf : iEnv.setFiles = Except.ok ())
    (hiw : iEnv.page.waitForItems = .error e2)
    (his : iEnv.page.noItemsScreenshot = Except.ok () ∨ iEnv.errScreenshot = Except.ok ()) :
    searchByText tEnv q b = .ok [] ∧ searchByImage iEnv p = .ok [] := by
  constructor
  · cases hns : tEnv.page.noItemsScreenshot with
    | ok u =>
      have hp : parseResults tEnv.page = .ok [] := by
        unfold parseResults; rw [htw, hns]
      have hA : textAttempt tEnv = .ok [] := by
        unfold textAttempt; rw [htg, htf, htc]; exact hp
      simp [searchByText, ht0, hA]
    | error e3 =>
      have hes : tEnv.errScreenshot = Except.ok () := by
        rcases hts with hts | hts
        · rw [hns] at hts; cases hts
        · exact hts
      have hp : parseResults tEnv.page = .error e3 := by
        unfold parseResults; rw [htw, hns]
      have hA : textAttempt tEnv = .error e3 := by
        unfold textAttempt; rw [htg, htf, htc]; exact hp
      simp [searchByText, ht0, hA, hes]
  · cases hns : iEnv.page.noItemsScreenshot with
    | ok u =>
      have hp : parseResults iEnv.page = .ok [] := by
        unfold parseResults; rw [hiw, hns]
      have hA : imageAttempt iEnv = .ok [] := by
        unfold imageAttempt; rw [hig, hicc, hisf]; exact hp
      simp [searchByImage, hi0, hA]
    | error e3 =>
      have hes : iEnv.errScreenshot = Except.ok () := by
        rcases his with his | his
        · rw [hns] at his; cases his
        · exact his
      have hp : parseResults iEnv.page = .error e3 := by
        unfold parseResults; rw [hiw, hns]
      have hA : imageAttempt iEnv = .error e3 := by
        unfold imageAttempt; rw [hig, hicc, hisf]; exact hp
      simp [searchByImage, hi0, hA, hes]

/-- C5 witness: the empty-result theorem applied to concrete environments in
which no result item appears. -/

theorem empty_result_guarantee_witness :
    tEnvNoItemsOk.page.waitForItems = Except.error Err.browse ∧
    (tEnvNoItemsOk.page.noItemsScreenshot = Except.ok () ∨
      tEnvNoItemsOk.errScreenshot = Except.ok ()) ∧
    searchByText tEnvNoItemsOk "widgets" false = .ok [] ∧
    searchByImage iEnvNoItemsOk "img.png" = .ok [] := by
  have h := empty_result_guarantee_given_screenshot_ok tEnvNoItemsOk iEnvNoItemsOk
    "widgets" "img.png" false .browse .browse rfl rfl rfl rfl rfl (Or.inl rfl)
    rfl rfl rfl rfl rfl (Or.inl rfl)
  exact ⟨rfl, Or.inl rfl, h.1, h.2⟩

/-- C10: a record returned by either search operation (with the browser
context available, as it always is during a search) carries the normalized
URL under both `product_page_url` and the detail-merge key `url`; and the
merge `product_summary.update(full_details)` never touches the summary keys
`title`, `company_summary` and `product_page_url`. -/

theorem merged_record_carries_url_twice (tEnv : TextSearchEnv)
    (iEnv : ImageSearchEnv) (q p : String) (b : Bool)
    (lt li : List ProductRecord)
    (hct : tEnv.page.hasContext = true) (hT : searchByText tEnv q b = .ok lt)
    (hci : iEnv.page.hasContext = true) (hI : searchByImage iEnv p = .ok li) :
    (∀ r ∈ lt, r.url = some r.product_page_url) ∧
    (∀ r ∈ li, r.url = some r.product_page_url) ∧
    (∀ (s : ProductRecord) (d : Details),
      (updateSummary s d).title = s.title ∧
      (updateSummary s d).company_summary = s.company_summary ∧
      (updateSummary s d).product_page_url = s.product_page_url ∧
      (updateSummary s d).url = some d.url) := by
  refine ⟨?_, ?_, fun s d => ⟨rfl, rfl, rfl, rfl⟩⟩
  · rcases searchByText_ok_cases tEnv q b lt hT with h | h
    · subst h; intro r hr; exact absurd hr (List.not_mem_nil r)
    · exact parseResults_url tEnv.page lt hct h
  · rcases searchByImage_ok_cases iEnv p li hI with h | h
    · subst h; intro r hr; exact absurd hr (List.not_mem_nil r)
    · exact parseResults_url iEnv.page li hci h

/-- C10 witness: the frame/url theorem applied to concrete single-item
searches. -/

theorem merged_record_carries_url_twice_witness :
    tEnvOne.page.hasContext = true ∧ iEnvOne.page.hasContext = true ∧
    searchByText tEnvOne "widgets" false = .ok oneRec ∧
    searchByImage iEnvOne "img.png" = .ok oneRec ∧
    ((∀ r ∈ oneRec, r.url = some r.product_page_url) ∧
     (∀ r ∈ oneRec, r.url = some r.product_page_url) ∧
     (∀ (s : ProductRecord) (d : Details),
       (updateSummary s d).title = s.title ∧
       (updateSummary s d).company_summary = s.company_summary ∧
       (updateSummary s d).product_page_url = s.product_page_url ∧
       (updateSummary s d).url = some d.url)) :=
  ⟨rfl, rfl, by decide, by decide,
    merged_record_carries_url_twice tEnvOne iEnvOne "widgets" "img.png" false
      oneRec oneRec rfl (by decide) rfl (by decide)⟩

end AlibabaScraper
